import Mathlib

/-!
Verification of the tile-serving core in `src/martin/src/srv/server.rs`.

The development shallowly embeds the request-to-tile pipeline: the
multi-source fan-out and assembly (`get_tile_content`), the HTTP response
construction (`get_tile_response`), the content-encoding negotiation
(`recompress`, `encode`, `decode`, `to_encoding`), and the TileJSON merger
(`merge_tilejson`).

Byte payloads are `List Nat`.  Fallible Rust code returning
`ActixResult<T>` becomes `Except ActixError T`.  Types that live outside
the embedded file (`martin_tile_utils::{Format, Encoding, TileInfo}`,
`Tile`, `TileCoord`, the gzip/brotli codec utilities, and the `tilejson`
crate types) are modelled from the specification, as marked on each such
definition.
-/

/-- Modelled from the spec: `martin_tile_utils::Format` — one of
mvt, png, jpeg, webp, json. -/
inductive Format where
  | mvt
  | png
  | jpeg
  | webp
  | json
deriving DecidableEq, Repr

/-- Modelled from the spec: `martin_tile_utils::Encoding` — one of
uncompressed, gzip, brotli, zstd. -/
inductive Encoding where
  | uncompressed
  | gzip
  | brotli
  | zstd
deriving DecidableEq, Repr

/-- Modelled from the spec: `is_encoded` holds exactly when the encoding is
not `uncompressed`. -/
def Encoding.is_encoded : Encoding → Bool
  | Encoding.uncompressed => false
  | _ => true

/-- Modelled from the spec: the canonical MIME type carried by each format
(scenario 4 fixes the mvt value). -/
def Format.content_type : Format → String
  | Format.mvt => "application/vnd.mapbox-vector-tile"
  | Format.png => "image/png"
  | Format.jpeg => "image/jpeg"
  | Format.webp => "image/webp"
  | Format.json => "application/json"

/-- Modelled from the spec: the canonical Content-Encoding token; identity
collapses to an absent header, gzip and brotli map to gzip and br. -/
def Encoding.content_encoding : Encoding → Option String
  | Encoding.uncompressed => none
  | Encoding.gzip => some "gzip"
  | Encoding.brotli => some "br"
  | Encoding.zstd => some "zstd"

/-- Modelled from the spec: `martin_tile_utils::TileInfo`, a format and
encoding pair. -/
structure TileInfo where
  format : Format
  encoding : Encoding
deriving DecidableEq, Repr

/-- Modelled from the spec: the TileInfo copy-with-new-encoding method
(Rust `TileInfo::encoding(self, enc)`; renamed because the field is also
called `encoding`). -/
def TileInfo.withEncoding (info : TileInfo) (e : Encoding) : TileInfo :=
  { info with encoding := e }

/-- Modelled from the spec: display names of the formats, used when an
error message names the offending format. -/
def formatName : Format → String
  | Format.mvt => "mvt"
  | Format.png => "png"
  | Format.jpeg => "jpeg"
  | Format.webp => "webp"
  | Format.json => "json"

/-- Modelled from the spec: display names of the encodings, used when an
error message names the offending encoding. -/
def encodingName : Encoding → String
  | Encoding.uncompressed => "uncompressed"
  | Encoding.gzip => "gzip"
  | Encoding.brotli => "brotli"
  | Encoding.zstd => "zstd"

/-- Modelled from the spec: the Display of `martin_tile_utils::TileInfo`
(the spec requires the merge-refusal message to name the offending format
and encoding). -/
def tileInfoDisplay (info : TileInfo) : String :=
  formatName info.format ++ " (" ++ encodingName info.encoding ++ ")"

/-- Modelled from the spec: `TileCoord`, a zoom and x and y triple. -/
structure TileCoord where
  z : Nat
  x : Nat
  y : Nat
deriving DecidableEq, Repr

/-- Modelled from the spec: a `Tile` is a byte payload together with its
TileInfo; an empty payload is legal. -/
structure Tile where
  data : List Nat
  info : TileInfo
deriving DecidableEq, Repr

/-- Modelled from the spec: `Tile::new`. -/
def Tile.new (data : List Nat) (info : TileInfo) : Tile :=
  { data := data, info := info }

/-- The actix-web error values produced by the embedded file: bad request,
internal server error, not found — each carrying its message. -/
inductive ActixError where
  | badRequest (msg : String)
  | internalServerError (msg : String)
  | notFound (msg : String)
deriving DecidableEq, Repr

/-- `map_internal_error` (server.rs, line 78): wrap any displayable error
as an internal server error carrying its message (logging is dropped by
the embedding). -/
def map_internal_error (e : String) : ActixError :=
  ActixError.internalServerError e

/-- Modelled from the spec: `crate::utils::encode_gzip`.  The real codec
lives outside the embedded file; the spec only requires the round-trip
law, so the model tags the payload with the two gzip magic bytes. -/
def encode_gzip (b : List Nat) : Except ActixError (List Nat) :=
  Except.ok (31 :: 139 :: b)

/-- Modelled from the spec: `crate::utils::decode_gzip`, inverse of
`encode_gzip`; fails on input that is not gzip data. -/
def decode_gzip (b : List Nat) : Except ActixError (List Nat) :=
  match b with
  | 31 :: 139 :: rest => Except.ok rest
  | _ => Except.error (ActixError.internalServerError "invalid gzip data")

/-- Modelled from the spec: `crate::utils::encode_brotli`; the model tags
the payload with a one-byte brotli marker. -/
def encode_brotli (b : List Nat) : Except ActixError (List Nat) :=
  Except.ok (206 :: b)

/-- Modelled from the spec: `crate::utils::decode_brotli`, inverse of
`encode_brotli`. -/
def decode_brotli (b : List Nat) : Except ActixError (List Nat) :=
  match b with
  | 206 :: rest => Except.ok rest
  | _ => Except.error (ActixError.internalServerError "invalid brotli data")

/-- The actix `ContentEncoding` enumeration. -/
inductive ContentEncoding where
  | brotli
  | deflate
  | gzip
  | identity
  | zstd
deriving DecidableEq, Repr

/-- The actix header `Encoding` (`HeaderEnc` in the embedded file): a known
content encoding or an unknown token. -/
inductive HeaderEnc where
  | known (enc : ContentEncoding)
  | unknown (token : String)
deriving DecidableEq, Repr

/-- The actix `Preference`: a wildcard or a specific item. -/
inductive Preference (T : Type) where
  | wildcard
  | specific (item : T)
deriving DecidableEq, Repr

/-- An Accept-Encoding list entry: a preference item with its quality
weight (0 to 1000, q=1 being 1000). -/
structure QualityItem where
  item : Preference HeaderEnc
  quality : Nat
deriving DecidableEq, Repr

/-- The parsed Accept-Encoding header: an ordered preference list. -/
structure AcceptEncoding where
  items : List QualityItem
deriving DecidableEq, Repr

/-- `SUPPORTED_ENCODINGS` (server.rs, line 42): brotli, gzip, identity, in
server preference order. -/
def SUPPORTED_ENCODINGS : List HeaderEnc :=
  [HeaderEnc.known ContentEncoding.brotli,
   HeaderEnc.known ContentEncoding.gzip,
   HeaderEnc.known ContentEncoding.identity]

/-- `to_encoding` (server.rs, line 474): map an actix content encoding to
the tile encoding it corresponds to; deflate and zstd map to none. -/
def to_encoding (val : ContentEncoding) : Option Encoding :=
  match val with
  | ContentEncoding.identity => some Encoding.uncompressed
  | ContentEncoding.gzip => some Encoding.gzip
  | ContentEncoding.brotli => some Encoding.brotli
  | _ => none

/-- Modelled from the spec: the quality a client preference list assigns
to one encoding — an explicitly matching item wins, then a wildcard, and
identity is implicitly acceptable when not mentioned. -/
def qualityOf (ae : AcceptEncoding) (enc : HeaderEnc) : Option Nat :=
  match ae.items.find? (fun i =>
      match i.item with
      | Preference.specific e => e == enc
      | Preference.wildcard => false) with
  | some i => some i.quality
  | none =>
    match ae.items.find? (fun i =>
        match i.item with
        | Preference.wildcard => true
        | _ => false) with
    | some i => some i.quality
    | none =>
      if enc == HeaderEnc.known ContentEncoding.identity then some 1000 else none

/-- Modelled from the spec: actix `AcceptEncoding::negotiate` against a
supported set — highest quality wins, zero quality excludes, ties go to
the earlier entry of the supported list. -/
def negotiate (ae : AcceptEncoding) (supported : List HeaderEnc) : Option HeaderEnc :=
  let scored := supported.filterMap (fun e => (qualityOf ae e).map (fun q => (e, q)))
  let scored := scored.filter (fun p => p.2 != 0)
  (scored.foldl (fun best p =>
    match best with
    | none => some p
    | some b => if b.2 < p.2 then some p else best) none).map (fun p => p.1)

/-- The bad-request message of `decode` (server.rs, line 466). -/
def storedNotAcceptedMsg (info : TileInfo) : String :=
  "Tile is is stored as " ++ tileInfoDisplay info ++
    ", but the client does not accept this encoding"

/-- `decode` (server.rs, lines 453 to 472): gzip and brotli tiles are
decompressed to uncompressed; other encoded tiles are refused with a bad
request; unencoded tiles pass through. -/
def decode (tile : Tile) : Except ActixError Tile :=
  let info := tile.info
  if info.encoding.is_encoded then
    match info.encoding with
    | Encoding.gzip =>
      match decode_gzip tile.data with
      | Except.error e => Except.error e
      | Except.ok d => Except.ok (Tile.new d (info.withEncoding Encoding.uncompressed))
    | Encoding.brotli =>
      match decode_brotli tile.data with
      | Except.error e => Except.error e
      | Except.ok d => Except.ok (Tile.new d (info.withEncoding Encoding.uncompressed))
    | _ => Except.error (ActixError.badRequest (storedNotAcceptedMsg info))
  else
    Except.ok tile

/-- `encode` (server.rs, lines 440 to 451): compress into brotli or gzip,
anything else passes through. -/
def encode (tile : Tile) (enc : ContentEncoding) : Except ActixError Tile :=
  match enc with
  | ContentEncoding.brotli =>
    match encode_brotli tile.data with
    | Except.error e => Except.error e
    | Except.ok d => Except.ok (Tile.new d (tile.info.withEncoding Encoding.brotli))
  | ContentEncoding.gzip =>
    match encode_gzip tile.data with
    | Except.error e => Except.error e
    | Except.ok d => Except.ok (Tile.new d (tile.info.withEncoding Encoding.gzip))
  | _ => Except.ok tile

/-- `recompress` (server.rs, lines 411 to 438).  With no Accept-Encoding
header the tile is decoded.  With a header: an encoded tile whose encoding
is explicitly listed passes through, otherwise it is decoded; an
uncompressed tile is then re-encoded into the negotiated encoding. -/
def recompress (tile : Tile) (accept_enc : Option AcceptEncoding) : Except ActixError Tile :=
  match accept_enc with
  | none => decode tile
  | some ae =>
    let step1 : Except ActixError Tile :=
      if tile.info.encoding.is_encoded then
        if ae.items.any (fun e =>
            match e.item with
            | Preference.specific (HeaderEnc.known enc) =>
              to_encoding enc == some tile.info.encoding
            | _ => false) then
          Except.ok tile
        else
          decode tile
      else
        Except.ok tile
    match step1 with
    | Except.error e => Except.error e
    | Except.ok t =>
      if t.info.encoding = Encoding.uncompressed then
        match negotiate ae SUPPORTED_ENCODINGS with
        | some (HeaderEnc.known enc) => encode t enc
        | _ => Except.ok t
      else
        Except.ok t

/-- A parsed URL query (`UrlQuery`), a list of key and value pairs. -/
def UrlQuery : Type := List (String × String)

/-- Modelled from the spec: the actix query parser used by
`Query::<UrlQuery>::from_query` — splits on ampersands and equals signs,
rejecting malformed input with a bad request. -/
def parseUrlQuery (v : String) : Except ActixError UrlQuery :=
  (v.splitOn "&").mapM (fun kv =>
    match kv.splitOn "=" with
    | [k, val] => Except.ok (k, val)
    | _ => Except.error (ActixError.badRequest ("Query deserialize error: " ++ kv)))

/-- The query preparation of `get_tile_content` (server.rs, lines 376 to
379): a present, non-empty query string is parsed, anything else becomes
none. -/
def parseQueryStage (query : Option String) : Except ActixError (Option UrlQuery) :=
  match query with
  | some v => if v = "" then Except.ok none else (parseUrlQuery v).map some
  | none => Except.ok none

/-- The `Source` trait object as consumed by the embedded file: a TileJSON
descriptor, a native TileInfo, and an async fetch returning bytes or an
error (the error is kept as its display string). -/
structure VectorLayer where
  id : String
  fields : List (String × String)
deriving DecidableEq, Repr

/-- Modelled from the spec: tilejson `Bounds` — west, south, east, north. -/
structure Bounds where
  left : Rat
  bottom : Rat
  right : Rat
  top : Rat
deriving DecidableEq, Repr

/-- Modelled from the spec: tilejson `Bounds` addition is the geometric
union — component-wise min of west and south, max of east and north. -/
def Bounds.add (a b : Bounds) : Bounds :=
  { left := min a.left b.left
    bottom := min a.bottom b.bottom
    right := max a.right b.right
    top := max a.top b.top }

/-- Modelled from the spec: tilejson `Center` — longitude, latitude, zoom. -/
structure Center where
  longitude : Rat
  latitude : Rat
  zoom : Nat
deriving DecidableEq, Repr

/-- Modelled from the spec: the TileJSON descriptor fields touched by the
merger; all other fields are default-initialized. -/
structure TileJSON where
  tiles : List String := []
  vector_layers : Option (List VectorLayer) := none
  attribution : Option String := none
  bounds : Option Bounds := none
  center : Option Center := none
  description : Option String := none
  maxzoom : Option Nat := none
  minzoom : Option Nat := none
  name : Option String := none
deriving DecidableEq, Repr

/-- Modelled from the spec: the `Source` trait — a stable id, a TileJSON
descriptor, a native TileInfo, and a fetch from coordinate and optional
query to bytes or an error message. -/
structure Source where
  id : String
  tilejson : TileJSON
  tile_info : TileInfo
  fetch : TileCoord → Option UrlQuery → Except String (List Nat)

/-- `merge_tilejson` (server.rs, lines 230 to 321): a single descriptor is
cloned with its tiles overwritten; several descriptors are merged field by
field in source order. -/
def merge_tilejson (sources : List Source) (tiles_url : String) : TileJSON :=
  match sources with
  | [s] => { s.tilejson with tiles := [tiles_url] }
  | _ => Id.run do
    let mut attributions : List String := []
    let mut descriptions : List String := []
    let mut names : List String := []
    let mut result : TileJSON := { tiles := [tiles_url] }
    for src in sources do
      let tj := src.tilejson
      match tj.vector_layers with
      | some vls =>
        match result.vector_layers with
        | some a => result := { result with vector_layers := some (a ++ vls) }
        | none => result := { result with vector_layers := some vls }
      | none => pure ()
      match tj.attribution with
      | some v =>
        if !(attributions.contains v) then
          attributions := attributions ++ [v]
      | none => pure ()
      match tj.bounds with
      | some bounds =>
        match result.bounds with
        | some a => result := { result with bounds := some (Bounds.add a bounds) }
        | none => result := { result with bounds := tj.bounds }
      | none => pure ()
      if result.center.isNone then
        result := { result with center := tj.center }
      match tj.description with
      | some v =>
        if !(descriptions.contains v) then
          descriptions := descriptions ++ [v]
      | none => pure ()
      match tj.maxzoom with
      | some maxzoom =>
        match result.maxzoom with
        | some a =>
          if a < maxzoom then
            result := { result with maxzoom := tj.maxzoom }
        | none => result := { result with maxzoom := tj.maxzoom }
      | none => pure ()
      match tj.minzoom with
      | some minzoom =>
        match result.minzoom with
        | some a =>
          if a > minzoom then
            result := { result with minzoom := tj.minzoom }
        | none => result := { result with minzoom := tj.minzoom }
      | none => pure ()
      match tj.name with
      | some name =>
        if !(names.contains name) then
          names := names ++ [name]
      | none => pure ()
    if !attributions.isEmpty then
      result := { result with attribution := some (String.intercalate "\n" attributions) }
    if !descriptions.isEmpty then
      result := { result with description := some (String.intercalate "\n" descriptions) }
    if !names.isEmpty then
      result := { result with name := some (String.intercalate "," names) }
    return result

/-- `futures::future::try_join_all` over already-computed results: collect
all payloads in source order, or fail with the first error. -/
def tryJoinAll : List (Except String (List Nat)) → Except String (List (List Nat))
  | [] => Except.ok []
  | x :: xs =>
    match x with
    | Except.error e => Except.error e
    | Except.ok v =>
      match tryJoinAll xs with
      | Except.error e => Except.error e
      | Except.ok vs => Except.ok (v :: vs)

/-- The merge-refusal message of `get_tile_content` (server.rs, line 392). -/
def cantMergeMsg (info : TileInfo) (z : Nat) : String :=
  "Can\x27t merge " ++ tileInfoDisplay info ++
    " tiles. Make sure there is only one non-empty tile source at zoom level " ++
    toString z

/-- Lines 385 to 406 of server.rs, after the fetches have produced their
payloads: refuse to merge several non-empty payloads unless the group info
is concatenation-safe, adopt the first payload when exactly one payload is
non-empty, return an empty tile untouched by the negotiator when all are
empty, concatenate otherwise, and hand the assembled tile to `recompress`. -/
def afterFetch (info : TileInfo) (z : Nat) (encodings : Option AcceptEncoding)
    (tiles : List (List Nat)) : Except ActixError Tile :=
  let can_join := info.format = Format.mvt ∧
    (info.encoding = Encoding.uncompressed ∨ info.encoding = Encoding.gzip)
  let layer_count := (tiles.filter (fun v => !v.isEmpty)).length
  if ¬ can_join ∧ 1 < layer_count then
    Except.error (ActixError.badRequest (cantMergeMsg info z))
  else
    match layer_count with
    | 1 => recompress (Tile.new (tiles.headD []) info) encodings
    | 0 => Except.ok (Tile.new [] info)
    | _ => recompress (Tile.new tiles.flatten info) encodings

/-- `get_tile_content` (server.rs, lines 366 to 409): refuse an empty
source list, prepare the query, fan out to every source, and assemble. -/
def get_tile_content (sources : List Source) (info : TileInfo) (xyz : TileCoord)
    (query : Option String) (encodings : Option AcceptEncoding) : Except ActixError Tile :=
  if sources.isEmpty then
    Except.error (ActixError.notFound "No valid sources found")
  else
    match parseQueryStage query with
    | Except.error e => Except.error e
    | Except.ok q =>
      match tryJoinAll (sources.map (fun s => s.fetch xyz q)) with
      | Except.error e => Except.error (map_internal_error e)
      | Except.ok tiles => afterFetch info xyz.z encodings tiles

/-- The HTTP response as far as the embedded file constructs it: status,
optional Content-Type and Content-Encoding headers, and the body bytes. -/
structure HttpResponseModel where
  status : Nat
  contentType : Option String
  contentEncoding : Option String
  body : List Nat
deriving DecidableEq, Repr

/-- `get_tile_response` (server.rs, lines 342 to 364), taking the already
resolved registry output (source list, query-forwarding flag, homogenized
info) as inputs since the registry is an external collaborator: an empty
tile becomes 204 No Content, anything else a 200 carrying the format MIME
type and the encoding token. -/
def get_tile_response (sources : List Source) (info : TileInfo) (xyz : TileCoord)
    (use_url_query : Bool) (query : String) (encodings : Option AcceptEncoding) :
    Except ActixError HttpResponseModel :=
  let q := if use_url_query then some query else none
  match get_tile_content sources info xyz q encodings with
  | Except.error e => Except.error e
  | Except.ok tile =>
    if tile.data.isEmpty then
      Except.ok { status := 204, contentType := none, contentEncoding := none, body := [] }
    else
      Except.ok { status := 200
                  contentType := some tile.info.format.content_type
                  contentEncoding := tile.info.encoding.content_encoding
                  body := tile.data }

/-- The mvt and uncompressed TileInfo used by the concrete instances. -/
def mvtUncInfo : TileInfo := TileInfo.mk Format.mvt Encoding.uncompressed

/-- The png and uncompressed TileInfo used by the concrete instances. -/
def pngUncInfo : TileInfo := TileInfo.mk Format.png Encoding.uncompressed

/-- A concrete source whose fetch always yields an empty payload. -/
def emptyFetchSource : Source :=
  { id := "srcEmpty", tilejson := {}, tile_info := mvtUncInfo
    fetch := fun _ _ => Except.ok [] }

/-- A concrete source whose fetch always yields the one-byte payload. -/
def oneByteSource : Source :=
  { id := "srcOne", tilejson := {}, tile_info := mvtUncInfo
    fetch := fun _ _ => Except.ok [1] }

/-- A concrete source whose fetch always yields the payload holding two. -/
def twoByteSource : Source :=
  { id := "srcTwo", tilejson := {}, tile_info := mvtUncInfo
    fetch := fun _ _ => Except.ok [2] }

/-- A concrete source whose fetch always fails. -/
def failingSource : Source :=
  { id := "srcFail", tilejson := {}, tile_info := mvtUncInfo
    fetch := fun _ _ => Except.error "backend exploded" }

/-- Collecting a map of everywhere-ok fetches yields the payloads in source
order. -/
lemma tryJoinAll_map_ok (l : List Source) (g : Source → Except String (List Nat))
    (f : Source → List Nat) (h : ∀ x ∈ l, g x = Except.ok (f x)) :
    tryJoinAll (l.map g) = Except.ok (l.map f) := by
  induction l with
  | nil => rfl
  | cons x xs ih =>
    have hx := h x (List.mem_cons_self x xs)
    have ihx := ih (fun y hy => h y (List.mem_cons_of_mem x hy))
    simp only [List.map_cons, tryJoinAll, hx, ihx]

/-- If any member of the list is an error, the join is an error. -/
lemma tryJoinAll_error (l : List (Except String (List Nat)))
    (h : ∃ x ∈ l, ∃ e, x = Except.error e) :
    ∃ e, tryJoinAll l = Except.error e := by
  induction l with
  | nil =>
    obtain ⟨x, hx, _⟩ := h
    exact absurd hx (List.not_mem_nil x)
  | cons x xs ih =>
    cases x with
    | error e => exact ⟨e, rfl⟩
    | ok v =>
      obtain ⟨y, hy, e, he⟩ := h
      rcases List.mem_cons.mp hy with hhead | htail
      · rw [hhead] at he
        exact absurd he (by simp)
      · obtain ⟨e', hxs⟩ := ih ⟨y, htail, e, he⟩
        exact ⟨e', by simp only [tryJoinAll, hxs]⟩

/-- With a non-empty source list, a well-formed query and all fetches
collected, `get_tile_content` is exactly the assembly stage. -/
lemma get_tile_content_fetch_ok (sources : List Source) (info : TileInfo)
    (xyz : TileCoord) (query : Option String) (encodings : Option AcceptEncoding)
    (q : Option UrlQuery) (tiles : List (List Nat))
    (hne : sources ≠ [])
    (hq : parseQueryStage query = Except.ok q)
    (hf : tryJoinAll (sources.map (fun s => s.fetch xyz q)) = Except.ok tiles) :
    get_tile_content sources info xyz query encodings = afterFetch info xyz.z encodings tiles := by
  have hne' : sources.isEmpty = false := List.isEmpty_eq_false.mpr hne
  simp only [get_tile_content, hne', Bool.false_eq_true, if_false, hq, hf]

/-- The assembly stage refuses several non-empty payloads whenever the
group info is not concatenation-safe. -/
lemma afterFetch_refuse (info : TileInfo) (z : Nat) (encodings : Option AcceptEncoding)
    (tiles : List (List Nat))
    (hjoin : ¬ (info.format = Format.mvt ∧
        (info.encoding = Encoding.uncompressed ∨ info.encoding = Encoding.gzip)))
    (hcount : 1 < (tiles.filter (fun v => !v.isEmpty)).length) :
    afterFetch info z encodings tiles = Except.error (ActixError.badRequest (cantMergeMsg info z)) := by
  simp only [afterFetch]
  rw [if_pos ⟨hjoin, hcount⟩]

/-- With a concatenation-safe group info and at least two non-empty
payloads, the assembly stage hands the concatenation to the negotiator. -/
lemma afterFetch_concat (info : TileInfo) (z : Nat) (encodings : Option AcceptEncoding)
    (tiles : List (List Nat))
    (hjoin : info.format = Format.mvt ∧
        (info.encoding = Encoding.uncompressed ∨ info.encoding = Encoding.gzip))
    (hcount : 2 ≤ (tiles.filter (fun v => !v.isEmpty)).length) :
    afterFetch info z encodings tiles = recompress (Tile.new tiles.flatten info) encodings := by
  simp only [afterFetch]
  rw [if_neg (fun h => h.1 hjoin)]
  obtain ⟨k, hk⟩ := Nat.exists_eq_add_of_le hcount
  rw [hk, Nat.add_comm 2 k]
  rfl

/-- When every payload is empty the assembly stage returns the empty tile
without consulting the negotiator. -/
lemma afterFetch_all_empty (info : TileInfo) (z : Nat) (encodings : Option AcceptEncoding)
    (tiles : List (List Nat)) (h : ∀ t ∈ tiles, t = []) :
    afterFetch info z encodings tiles = Except.ok (Tile.new [] info) := by
  have hlen : (tiles.filter (fun v => !v.isEmpty)).length = 0 := by
    rw [List.length_eq_zero, List.filter_eq_nil_iff]
    intro a ha
    simp [h a ha]
  simp only [afterFetch]
  rw [if_neg (fun hc => by rw [hlen] at hc; exact Nat.not_lt_zero 1 hc.2), hlen]

/-- A string whose splitting is known contains the middle piece. -/
lemma data_sub_of_split (whole pre s post : String) (h : whole = pre ++ s ++ post) :
    s.data <:+: whole.data := by
  rw [h, String.data_append, String.data_append]
  exact List.infix_append _ _ _

/-- C9: for a single source S and URL u, merge_tilejson [S] u has tiles [u]
and every other field equal to the corresponding field of the TileJSON
descriptor of S. -/
theorem claim_C9 (s : Source) (u : String) :
    (merge_tilejson [s] u).tiles = [u] ∧
    (merge_tilejson [s] u).vector_layers = s.tilejson.vector_layers ∧
    (merge_tilejson [s] u).attribution = s.tilejson.attribution ∧
    (merge_tilejson [s] u).bounds = s.tilejson.bounds ∧
    (merge_tilejson [s] u).center = s.tilejson.center ∧
    (merge_tilejson [s] u).description = s.tilejson.description ∧
    (merge_tilejson [s] u).maxzoom = s.tilejson.maxzoom ∧
    (merge_tilejson [s] u).minzoom = s.tilejson.minzoom ∧
    (merge_tilejson [s] u).name = s.tilejson.name :=
  ⟨rfl, rfl, rfl, rfl, rfl, rfl, rfl, rfl, rfl⟩

/-- C6: recompress with no Accept-Encoding header decodes a gzip or brotli
tile to its decoded payload with encoding uncompressed, and returns an
already uncompressed tile unchanged. -/
theorem claim_C6 (tile : Tile) :
    (tile.info.encoding = Encoding.uncompressed → recompress tile none = Except.ok tile) ∧
    (∀ d, tile.info.encoding = Encoding.gzip → decode_gzip tile.data = Except.ok d →
        recompress tile none = Except.ok (Tile.new d (tile.info.withEncoding Encoding.uncompressed))) ∧
    (∀ d, tile.info.encoding = Encoding.brotli → decode_brotli tile.data = Except.ok d →
        recompress tile none = Except.ok (Tile.new d (tile.info.withEncoding Encoding.uncompressed))) := by
  refine ⟨?_, ?_, ?_⟩
  · intro h
    simp [recompress, decode, h, Encoding.is_encoded]
  · intro d h hd
    simp [recompress, decode, h, hd, Encoding.is_encoded]
  · intro d h hd
    simp [recompress, decode, h, hd, Encoding.is_encoded]

/-- Witness for C6 at concrete tiles: one uncompressed, one gzip, one
brotli. -/
theorem claim_C6_witness :
    recompress (Tile.new [5] (TileInfo.mk Format.mvt Encoding.uncompressed)) none
        = Except.ok (Tile.new [5] (TileInfo.mk Format.mvt Encoding.uncompressed)) ∧
    recompress (Tile.new [31, 139, 7] (TileInfo.mk Format.mvt Encoding.gzip)) none
        = Except.ok (Tile.new [7] ((TileInfo.mk Format.mvt Encoding.gzip).withEncoding Encoding.uncompressed)) ∧
    recompress (Tile.new [206, 9] (TileInfo.mk Format.mvt Encoding.brotli)) none
        = Except.ok (Tile.new [9] ((TileInfo.mk Format.mvt Encoding.brotli).withEncoding Encoding.uncompressed)) :=
  ⟨(claim_C6 (Tile.new [5] (TileInfo.mk Format.mvt Encoding.uncompressed))).1 rfl,
   (claim_C6 (Tile.new [31, 139, 7] (TileInfo.mk Format.mvt Encoding.gzip))).2.1 [7] rfl rfl,
   (claim_C6 (Tile.new [206, 9] (TileInfo.mk Format.mvt Encoding.brotli))).2.2 [9] rfl rfl⟩

/-- C7: an encoded tile whose stored encoding is explicitly listed in the
Accept-Encoding preference list passes through recompress unchanged. -/
theorem claim_C7 (tile : Tile) (ae : AcceptEncoding)
    (henc : tile.info.encoding.is_encoded = true)
    (hmatch : ∃ item ∈ ae.items, ∃ enc, item.item = Preference.specific (HeaderEnc.known enc) ∧
        to_encoding enc = some tile.info.encoding) :
    recompress tile (some ae) = Except.ok tile := by
  have hany : (ae.items.any (fun e =>
      match e.item with
      | Preference.specific (HeaderEnc.known enc) => to_encoding enc == some tile.info.encoding
      | _ => false)) = true := by
    rw [List.any_eq_true]
    obtain ⟨item, hmem, enc, hit, hto⟩ := hmatch
    exact ⟨item, hmem, by rw [hit]; simp [hto]⟩
  have hne : ¬ tile.info.encoding = Encoding.uncompressed := by
    intro h
    rw [h] at henc
    exact absurd henc (by simp [Encoding.is_encoded])
  simp [recompress, henc, hany, hne]

/-- Witness for C7: a gzip tile with gzip explicitly accepted. -/
theorem claim_C7_witness :
    recompress (Tile.new [31, 139, 7] (TileInfo.mk Format.mvt Encoding.gzip))
        (some (AcceptEncoding.mk
          [QualityItem.mk (Preference.specific (HeaderEnc.known ContentEncoding.gzip)) 1000]))
      = Except.ok (Tile.new [31, 139, 7] (TileInfo.mk Format.mvt Encoding.gzip)) :=
  claim_C7 (Tile.new [31, 139, 7] (TileInfo.mk Format.mvt Encoding.gzip))
    (AcceptEncoding.mk
      [QualityItem.mk (Preference.specific (HeaderEnc.known ContentEncoding.gzip)) 1000])
    rfl
    ⟨QualityItem.mk (Preference.specific (HeaderEnc.known ContentEncoding.gzip)) 1000,
      List.mem_singleton.mpr rfl, ContentEncoding.gzip, rfl, rfl⟩

/-- C10: the pass-through check of recompress ignores the quality weight:
an item naming the stored encoding with quality zero still counts as an
explicit match and the encoded tile is returned unchanged. -/
theorem claim_C10 (tile : Tile) (ae : AcceptEncoding)
    (henc : tile.info.encoding.is_encoded = true)
    (hmatch : ∃ item ∈ ae.items, item.quality = 0 ∧ ∃ enc,
        item.item = Preference.specific (HeaderEnc.known enc) ∧
        to_encoding enc = some tile.info.encoding) :
    recompress tile (some ae) = Except.ok tile := by
  have hany : (ae.items.any (fun e =>
      match e.item with
      | Preference.specific (HeaderEnc.known enc) => to_encoding enc == some tile.info.encoding
      | _ => false)) = true := by
    rw [List.any_eq_true]
    obtain ⟨item, hmem, _, enc, hit, hto⟩ := hmatch
    exact ⟨item, hmem, by rw [hit]; simp [hto]⟩
  have hne : ¬ tile.info.encoding = Encoding.uncompressed := by
    intro h
    rw [h] at henc
    exact absurd henc (by simp [Encoding.is_encoded])
  simp [recompress, henc, hany, hne]

/-- Witness for C10: a gzip tile with Accept-Encoding gzip at quality 0
still passes through in its stored encoding. -/
theorem claim_C10_witness :
    recompress (Tile.new [31, 139, 7] (TileInfo.mk Format.mvt Encoding.gzip))
        (some (AcceptEncoding.mk
          [QualityItem.mk (Preference.specific (HeaderEnc.known ContentEncoding.gzip)) 0]))
      = Except.ok (Tile.new [31, 139, 7] (TileInfo.mk Format.mvt Encoding.gzip)) :=
  claim_C10 (Tile.new [31, 139, 7] (TileInfo.mk Format.mvt Encoding.gzip))
    (AcceptEncoding.mk
      [QualityItem.mk (Preference.specific (HeaderEnc.known ContentEncoding.gzip)) 0])
    rfl
    ⟨QualityItem.mk (Preference.specific (HeaderEnc.known ContentEncoding.gzip)) 0,
      List.mem_singleton.mpr rfl, rfl, ContentEncoding.gzip, rfl, rfl⟩

/-- C8: decode refuses a tile stored in an encoded encoding other than
gzip or brotli with a bad request whose message states the stored
encoding, while gzip and brotli inputs decode to an uncompressed tile. -/
theorem claim_C8 (tile : Tile) :
    ((tile.info.encoding.is_encoded = true ∧ tile.info.encoding ≠ Encoding.gzip ∧
        tile.info.encoding ≠ Encoding.brotli) →
      decode tile = Except.error (ActixError.badRequest (storedNotAcceptedMsg tile.info)) ∧
      (encodingName tile.info.encoding).data <:+: (storedNotAcceptedMsg tile.info).data) ∧
    (∀ d, tile.info.encoding = Encoding.gzip → decode_gzip tile.data = Except.ok d →
      decode tile = Except.ok (Tile.new d (tile.info.withEncoding Encoding.uncompressed))) ∧
    (∀ d, tile.info.encoding = Encoding.brotli → decode_brotli tile.data = Except.ok d →
      decode tile = Except.ok (Tile.new d (tile.info.withEncoding Encoding.uncompressed))) := by
  refine ⟨?_, ?_, ?_⟩
  · rintro ⟨henc, hg, hb⟩
    have hz : tile.info.encoding = Encoding.zstd := by
      cases hcase : tile.info.encoding
      · rw [hcase] at henc
        exact absurd henc (by simp [Encoding.is_encoded])
      · exact absurd hcase hg
      · exact absurd hcase hb
      · rfl
    constructor
    · simp [decode, hz, Encoding.is_encoded]
    · exact data_sub_of_split (storedNotAcceptedMsg tile.info)
        ("Tile is is stored as " ++ formatName tile.info.format ++ " (")
        (encodingName tile.info.encoding)
        (")" ++ ", but the client does not accept this encoding")
        (by simp [storedNotAcceptedMsg, tileInfoDisplay, String.append_assoc])
  · intro d h hd
    simp [decode, h, hd, Encoding.is_encoded]
  · intro d h hd
    simp [decode, h, hd, Encoding.is_encoded]

/-- Witness for C8 at concrete tiles: one zstd, one gzip, one brotli. -/
theorem claim_C8_witness :
    (decode (Tile.new [1] (TileInfo.mk Format.mvt Encoding.zstd))
        = Except.error (ActixError.badRequest (storedNotAcceptedMsg (TileInfo.mk Format.mvt Encoding.zstd))) ∧
      (encodingName Encoding.zstd).data <:+: (storedNotAcceptedMsg (TileInfo.mk Format.mvt Encoding.zstd)).data) ∧
    decode (Tile.new [31, 139, 7] (TileInfo.mk Format.mvt Encoding.gzip))
        = Except.ok (Tile.new [7] ((TileInfo.mk Format.mvt Encoding.gzip).withEncoding Encoding.uncompressed)) ∧
    decode (Tile.new [206, 9] (TileInfo.mk Format.mvt Encoding.brotli))
        = Except.ok (Tile.new [9] ((TileInfo.mk Format.mvt Encoding.brotli).withEncoding Encoding.uncompressed)) :=
  ⟨(claim_C8 (Tile.new [1] (TileInfo.mk Format.mvt Encoding.zstd))).1
      ⟨rfl, by decide, by decide⟩,
   (claim_C8 (Tile.new [31, 139, 7] (TileInfo.mk Format.mvt Encoding.gzip))).2.1 [7] rfl rfl,
   (claim_C8 (Tile.new [206, 9] (TileInfo.mk Format.mvt Encoding.brotli))).2.2 [9] rfl rfl⟩

/-- C1: when the fan-out yields two or more non-empty payloads and the
homogenized info is not mvt with encoding uncompressed or gzip,
get_tile_content fails with a bad request whose message names the
offending format, the offending encoding and the zoom level, and no tile
is returned. -/
theorem claim_C1 (sources : List Source) (info : TileInfo) (xyz : TileCoord)
    (query : Option String) (encodings : Option AcceptEncoding)
    (q : Option UrlQuery) (tiles : List (List Nat))
    (hq : parseQueryStage query = Except.ok q)
    (hf : tryJoinAll (sources.map (fun s => s.fetch xyz q)) = Except.ok tiles)
    (hcount : 2 ≤ (tiles.filter (fun v => !v.isEmpty)).length)
    (hjoin : ¬ (info.format = Format.mvt ∧
        (info.encoding = Encoding.uncompressed ∨ info.encoding = Encoding.gzip))) :
    get_tile_content sources info xyz query encodings
        = Except.error (ActixError.badRequest (cantMergeMsg info xyz.z)) ∧
      (formatName info.format).data <:+: (cantMergeMsg info xyz.z).data ∧
      (encodingName info.encoding).data <:+: (cantMergeMsg info xyz.z).data ∧
      (toString xyz.z).data <:+: (cantMergeMsg info xyz.z).data := by
  have hne : sources ≠ [] := by
    rintro rfl
    simp only [List.map_nil, tryJoinAll, Except.ok.injEq] at hf
    rw [← hf] at hcount
    simp at hcount
  refine ⟨?_, ?_, ?_, ?_⟩
  · exact (get_tile_content_fetch_ok sources info xyz query encodings q tiles hne hq hf).trans
      (afterFetch_refuse info xyz.z encodings tiles hjoin (by omega))
  · exact data_sub_of_split (cantMergeMsg info xyz.z) "Can\x27t merge "
      (formatName info.format)
      (" (" ++ encodingName info.encoding ++ ")" ++
        " tiles. Make sure there is only one non-empty tile source at zoom level " ++
        toString xyz.z)
      (by simp [cantMergeMsg, tileInfoDisplay, String.append_assoc])
  · exact data_sub_of_split (cantMergeMsg info xyz.z)
      ("Can\x27t merge " ++ formatName info.format ++ " (")
      (encodingName info.encoding)
      (")" ++ " tiles. Make sure there is only one non-empty tile source at zoom level " ++
        toString xyz.z)
      (by simp [cantMergeMsg, tileInfoDisplay, String.append_assoc])
  · exact data_sub_of_split (cantMergeMsg info xyz.z)
      ("Can\x27t merge " ++ tileInfoDisplay info ++
        " tiles. Make sure there is only one non-empty tile source at zoom level ")
      (toString xyz.z) ""
      (by simp [cantMergeMsg, String.append_assoc])

/-- Witness for C1: two non-empty png sources at zoom 3 are refused. -/
theorem claim_C1_witness :
    get_tile_content [oneByteSource, twoByteSource] pngUncInfo (TileCoord.mk 3 0 0) none none
        = Except.error (ActixError.badRequest (cantMergeMsg pngUncInfo 3)) ∧
      (formatName Format.png).data <:+: (cantMergeMsg pngUncInfo 3).data ∧
      (encodingName Encoding.uncompressed).data <:+: (cantMergeMsg pngUncInfo 3).data ∧
      (toString 3).data <:+: (cantMergeMsg pngUncInfo 3).data :=
  claim_C1 [oneByteSource, twoByteSource] pngUncInfo (TileCoord.mk 3 0 0) none none none
    [[1], [2]] rfl rfl (by decide) (by decide)

/-- C3: with a concatenation-safe group info and two or more non-empty
payloads, the tile handed to the negotiator carries the byte-wise
concatenation of the payloads in source order; in particular, for
uncompressed mvt sources and no Accept-Encoding header the returned body
is the concatenation itself. -/
theorem claim_C3 (sources : List Source) (info : TileInfo) (xyz : TileCoord)
    (query : Option String) (encodings : Option AcceptEncoding)
    (q : Option UrlQuery) (tiles : List (List Nat))
    (hq : parseQueryStage query = Except.ok q)
    (hf : tryJoinAll (sources.map (fun s => s.fetch xyz q)) = Except.ok tiles)
    (hcount : 2 ≤ (tiles.filter (fun v => !v.isEmpty)).length)
    (hjoin : info.format = Format.mvt ∧
        (info.encoding = Encoding.uncompressed ∨ info.encoding = Encoding.gzip)) :
    get_tile_content sources info xyz query encodings
        = recompress (Tile.new tiles.flatten info) encodings ∧
      (info.encoding = Encoding.uncompressed →
        get_tile_content sources info xyz query none
          = Except.ok (Tile.new tiles.flatten info)) := by
  have hne : sources ≠ [] := by
    rintro rfl
    simp only [List.map_nil, tryJoinAll, Except.ok.injEq] at hf
    rw [← hf] at hcount
    simp at hcount
  constructor
  · exact (get_tile_content_fetch_ok sources info xyz query encodings q tiles hne hq hf).trans
      (afterFetch_concat info xyz.z encodings tiles hjoin hcount)
  · intro hunc
    have h1 := (get_tile_content_fetch_ok sources info xyz query none q tiles hne hq hf).trans
      (afterFetch_concat info xyz.z none tiles hjoin hcount)
    rw [h1]
    simp [recompress, decode, Tile.new, hunc, Encoding.is_encoded]

/-- Witness for C3: two uncompressed mvt payloads concatenate in source
order into the body. -/
theorem claim_C3_witness :
    get_tile_content [oneByteSource, twoByteSource] mvtUncInfo (TileCoord.mk 5 10 12) none none
        = Except.ok (Tile.new [1, 2] mvtUncInfo) :=
  (claim_C3 [oneByteSource, twoByteSource] mvtUncInfo (TileCoord.mk 5 10 12) none none none
    [[1], [2]] rfl rfl (by decide) (by decide)).2 rfl

/-- C4: when every selected source returns an empty payload,
get_tile_content returns the empty tile carrying the homogenized info and
get_tile_response emits 204 No Content with no body. -/
theorem claim_C4 (sources : List Source) (info : TileInfo) (xyz : TileCoord)
    (use_url_query : Bool) (query : String) (encodings : Option AcceptEncoding)
    (q : Option UrlQuery)
    (hne : sources ≠ [])
    (hq : parseQueryStage (if use_url_query then some query else none) = Except.ok q)
    (hempty : ∀ s ∈ sources, s.fetch xyz q = Except.ok []) :
    get_tile_content sources info xyz (if use_url_query then some query else none) encodings
        = Except.ok (Tile.new [] info) ∧
    get_tile_response sources info xyz use_url_query query encodings
        = Except.ok (HttpResponseModel.mk 204 none none []) := by
  have hf : tryJoinAll (sources.map (fun s => s.fetch xyz q))
      = Except.ok (sources.map (fun _ => [])) :=
    tryJoinAll_map_ok sources _ (fun _ => []) hempty
  have hcontent : get_tile_content sources info xyz
      (if use_url_query then some query else none) encodings = Except.ok (Tile.new [] info) :=
    (get_tile_content_fetch_ok sources info xyz _ encodings q _ hne hq hf).trans
      (afterFetch_all_empty info xyz.z encodings _ (by
        intro t ht
        obtain ⟨s, _, rfl⟩ := List.mem_map.mp ht
        rfl))
  refine ⟨hcontent, ?_⟩
  simp [get_tile_response, hcontent, Tile.new]

/-- Witness for C4: one source returning an empty payload yields the empty
tile and a 204 response. -/
theorem claim_C4_witness :
    get_tile_content [emptyFetchSource] mvtUncInfo (TileCoord.mk 5 10 12) none none
        = Except.ok (Tile.new [] mvtUncInfo) ∧
    get_tile_response [emptyFetchSource] mvtUncInfo (TileCoord.mk 5 10 12) false "" none
        = Except.ok (HttpResponseModel.mk 204 none none []) :=
  claim_C4 [emptyFetchSource] mvtUncInfo (TileCoord.mk 5 10 12) false "" none none
    (by simp) rfl
    (fun s hs => by rw [List.mem_singleton] at hs; subst hs; rfl)

/-- C5: if any single source fetch fails, get_tile_content returns an
internal-server-error result and no tile is produced from the remaining
payloads. -/
theorem claim_C5 (sources : List Source) (info : TileInfo) (xyz : TileCoord)
    (query : Option String) (encodings : Option AcceptEncoding)
    (q : Option UrlQuery)
    (hq : parseQueryStage query = Except.ok q)
    (hfail : ∃ s ∈ sources, ∃ e, s.fetch xyz q = Except.error e) :
    ∃ msg, get_tile_content sources info xyz query encodings
      = Except.error (ActixError.internalServerError msg) := by
  obtain ⟨s, hs, e, he⟩ := hfail
  have hne : sources ≠ [] := by
    rintro rfl
    exact absurd hs (List.not_mem_nil s)
  have hne' : sources.isEmpty = false := List.isEmpty_eq_false.mpr hne
  obtain ⟨e', hf⟩ := tryJoinAll_error (sources.map (fun s => s.fetch xyz q))
    ⟨s.fetch xyz q, List.mem_map_of_mem _ hs, e, he⟩
  exact ⟨e', by simp only [get_tile_content, hne', Bool.false_eq_true, if_false, hq, hf,
    map_internal_error]⟩

/-- Witness for C5: a single failing source aborts the request with an
internal server error. -/
theorem claim_C5_witness :
    get_tile_content [failingSource] mvtUncInfo (TileCoord.mk 0 0 0) none none
        = Except.error (ActixError.internalServerError "backend exploded") := by
  obtain ⟨msg, hmsg⟩ := claim_C5 [failingSource] mvtUncInfo (TileCoord.mk 0 0 0) none none none
    rfl ⟨failingSource, List.mem_singleton.mpr rfl, "backend exploded", rfl⟩
  exact rfl

/-- C2 (counterexample to the claimed position independence): when exactly
one payload is non-empty the code adopts the FIRST payload via
swap_remove(0) in server.rs line 400, so the unique non-empty payload is
dropped whenever it is not in the first position, while the same payloads
in the other order are served. -/
theorem claim_C2_bug_eval :
    get_tile_content [emptyFetchSource, oneByteSource] mvtUncInfo (TileCoord.mk 0 0 0) none none
        = Except.ok (Tile.new [] mvtUncInfo) ∧
    get_tile_content [oneByteSource, emptyFetchSource] mvtUncInfo (TileCoord.mk 0 0 0) none none
        = Except.ok (Tile.new [1] mvtUncInfo) :=
  ⟨rfl, rfl⟩
